import Mathlib

/-!
Shallow embedding of the event clustering and verification engine of the
Sahaayak disaster-information hub (`backend/services/event_service.py` and
`backend/models.py`).

Modelling conventions:
* latitude/longitude (Python `float`) are rationals `ℚ`; timestamps
  (`datetime`) are integers `ℤ` counting epoch seconds, so
  `timedelta(hours=24)` is `24 * 3600`;
* nullable columns are `Option`s; Python truthiness of an optional float
  (`not item.lat`) is "`none` or `some 0`", and of an optional string
  (`if item.source`) is "`none` or the empty string";
* the database tables are explicit lists (`items_table`, `events_table`);
  the service returns the updated event value instead of mutating rows;
* the third-party H3 index (`h3.geo_to_h3` at the service's fixed
  resolution 5) is an abstract parameter `h3 : ℚ → ℚ → String`, the geopy
  great-circle distance an abstract parameter `d`, and the scikit-learn
  DBSCAN run (together with the km/hour normalisation applied to the
  coordinate matrix) an abstract labelling function `labels_of`;
* Python's stable `list.sort(key=...)` is modelled by the (stable)
  `List.insertionSort` with the key comparison;
* leading underscores of Python's private helpers are dropped from names.
-/

/-- A row of the `items` table (`models.py`, class `Item`); only the columns
read by the event service are kept. -/
structure Item where
  id : Nat
  source : Option String
  place : Option String
  lat : Option ℚ
  lon : Option ℚ
  disaster_type : Option String
  created_at : ℤ
  deriving DecidableEq, Repr, Inhabited

/-- A row of the `events` table (`models.py`, class `Event`) together with its
`items` relationship; columns never read or written by the embedded code
(`id`, `severity`, `confidence`, `created_at`, `updated_at`) are omitted.
Field defaults are the column/Python defaults used by `Event(...)`. -/
structure Event where
  title : Option String := none
  description : Option String := none
  disaster_type : Option String := none
  centroid_lat : Option ℚ := none
  centroid_lon : Option ℚ := none
  bbox : Option (List ℚ) := none
  h3_index : Option String := none
  start_time : Option ℤ := none
  end_time : Option ℤ := none
  item_count : Nat := 0
  source_count : Nat := 0
  is_verified : Bool := false
  verification_reason : Option String := none
  items : List Item := []
  deriving DecidableEq, Repr, Inhabited

/-- Python truthiness filter for an optional string: `None` and `""` are
falsy, anything else is kept. -/
def truthy_str : Option String → Option String
  | none => none
  | some s => if s = "" then none else some s

/-- Python `min` over a non-empty list (the `[]` default is never reached by
the embedded call sites, which guard for non-emptiness). -/
def list_min {α : Type} [LinearOrder α] [Inhabited α] : List α → α
  | [] => default
  | x :: t => t.foldl min x

/-- Python `max` over a non-empty list. -/
def list_max {α : Type} [LinearOrder α] [Inhabited α] : List α → α
  | [] => default
  | x :: t => t.foldl max x

/-- Python `str.capitalize`: first character upper-cased, the rest
lower-cased. -/
def str_capitalize (s : String) : String :=
  match s.data with
  | [] => ""
  | c :: cs => String.mk (c.toUpper :: cs.map Char.toLower)

/-- `max(set(l), key=l.count)`: a value of `l` with the greatest number of
occurrences.  CPython iterates the set in unspecified (hash) order, so among
tied maxima the chosen one is unspecified; this model resolves ties by first
occurrence in `l`.  Returns `dflt` on the empty list (the call sites guard
with Python truthiness of the list). -/
def mode_first (l : List String) (dflt : String) : String :=
  match l with
  | [] => dflt
  | x :: xs => xs.foldl (fun best s => if l.count best < l.count s then s else best) x

/-- `any(item.source in official_sources for item in self.items)` with
`official_sources = {'USGS', 'GDACS'}` (`models.py`,
`Event._update_verification`). -/
def has_official_source (items : List Item) : Bool :=
  items.any (fun i => i.source == some "USGS" || i.source == some "GDACS")

/-- `len({item.source for item in self.items if item.source})`
(`models.py`, `Event.update_metrics`): the number of distinct truthy
sources. -/
def distinct_source_count (items : List Item) : Nat :=
  (((items.filterMap (fun i => i.source)).filter (fun s => decide (s ≠ ""))).dedup).length

/-- `Event._update_verification` (`models.py` lines 98-116): set
`is_verified`/`verification_reason` from the presence of an official source
and the already-computed `source_count`. -/
def Event.update_verification (ev : Event) : Event :=
  let has_official := has_official_source ev.items
  let has_enough_sources := decide (3 ≤ ev.source_count)
  if has_official || has_enough_sources then
    { ev with
        is_verified := true,
        verification_reason :=
          if has_official then some "official_source"
          else some ("multiple_sources_" ++ toString ev.source_count) }
  else
    { ev with is_verified := false, verification_reason := none }

/-- `Event.update_metrics` (`models.py` lines 84-96): on a non-empty member
list, recompute `item_count` and `source_count`, then re-run verification. -/
def Event.update_metrics (ev : Event) : Event :=
  if ev.items = [] then ev
  else
    Event.update_verification
      { ev with
          item_count := ev.items.length,
          source_count := distinct_source_count ev.items }

/-- Abstract H3 indexing at the service's fixed resolution:
`h3.geo_to_h3(lat, lon, 5)`. -/
abbrev H3Fn := ℚ → ℚ → String

/-- Abstract geopy `great_circle((lat, lon), (centroid_lat, centroid_lon)).km`;
the second pair carries the raw nullable centroid columns. -/
abbrev DistFn := ℚ × ℚ → Option ℚ × Option ℚ → ℚ

/-- `EventService._update_event_geography` (`event_service.py` lines
141-167): recompute centroid, H3 index and bounding box from the complete
member list, filtering null latitudes and longitudes independently. -/
def update_event_geography (h3 : H3Fn) (ev : Event) : Event :=
  if ev.items = [] then ev
  else
    let lats := ev.items.filterMap (fun i => i.lat)
    let lons := ev.items.filterMap (fun i => i.lon)
    if lats ≠ [] ∧ lons ≠ [] then
      let clat := lats.sum / (lats.length : ℚ)
      let clon := lons.sum / (lons.length : ℚ)
      { ev with
          centroid_lat := some clat,
          centroid_lon := some clon,
          h3_index := some (h3 clat clon),
          bbox := some [list_min lons, list_min lats, list_max lons, list_max lats] }
    else ev

/-- `EventService._generate_event_summary` (`event_service.py` lines
169-186): title from the most common truthy disaster type and the FIRST
truthy place (`next(...)`), description from a fixed template. -/
def generate_event_summary (ev : Event) : Event :=
  if ev.items = [] then ev
  else
    let disaster_types := ev.items.filterMap (fun i => truthy_str i.disaster_type)
    let most_common_type := mode_first disaster_types "disaster"
    let location := (ev.items.filterMap (fun i => truthy_str i.place)).headD "an unknown location"
    { ev with
        title := some (str_capitalize most_common_type ++ " in " ++ location),
        description := some ("A " ++ most_common_type ++ " event was reported in " ++ location
          ++ " with " ++ toString ev.items.length ++ " related reports from "
          ++ toString ev.source_count ++ " different sources.") }

/-- `EventService._add_item_to_event` (`event_service.py` lines 92-109):
no-op when the report is already a member; otherwise append it, update the
running min/max times, recompute geography, metrics and verification. -/
def add_item_to_event (h3 : H3Fn) (item : Item) (event : Event) : Event :=
  if item ∈ event.items then event
  else
    let ev1 : Event := { event with items := event.items ++ [item] }
    let ev2 : Event :=
      { ev1 with
          start_time :=
            match ev1.start_time with
            | none => some item.created_at
            | some st => if item.created_at < st then some item.created_at else some st,
          end_time :=
            match ev1.end_time with
            | none => some item.created_at
            | some et => if et < item.created_at then some item.created_at else some et }
    Event.update_metrics (update_event_geography h3 ev2)

/-- `EventService._create_new_event` (`event_service.py` lines 111-139):
`None` on an empty list, otherwise a fresh event seeded with the first
item's disaster type and the min/max creation times, then geography,
metrics and summary passes. -/
def create_new_event (h3 : H3Fn) (items : List Item) : Option Event :=
  match items with
  | [] => none
  | i0 :: _ =>
    let event : Event :=
      { disaster_type := i0.disaster_type,
        start_time := some (list_min (items.map (fun i => i.created_at))),
        end_time := some (list_max (items.map (fun i => i.created_at))),
        items := items }
    some (generate_event_summary (Event.update_metrics (update_event_geography h3 event)))

/-- The SQLAlchemy filter of `EventService._find_matching_events`
(`event_service.py` lines 76-80): same H3 cell, `start_time` inside the
24-hour window (SQL `NULL` comparisons are false), equal disaster type
(`== None` compiles to `IS NULL`, hence plain `Option` equality). -/
def matches_query (h3_index : String) (time_window_start : ℤ)
    (disaster_type : Option String) (e : Event) : Bool :=
  decide (e.h3_index = some h3_index) &&
  (match e.start_time with
   | some st => decide (time_window_start ≤ st)
   | none => false) &&
  decide (e.disaster_type = disaster_type)

/-- Sort key of `matching_events.sort(key=...)`: distance from the report's
coordinates to the candidate's centroid columns. -/
def dist_to_centroid (d : DistFn) (la lo : ℚ) (e : Event) : ℚ :=
  d (la, lo) (e.centroid_lat, e.centroid_lon)

/-- `EventService._find_matching_events` (`event_service.py` lines 68-90):
filter the events table, then stable-sort ascending by distance to the
centroid.  `la`/`lo` are the report's (non-null) coordinates. -/
def find_matching_events (d : DistFn) (h3 : H3Fn) (events : List Event)
    (item : Item) (la lo : ℚ) : List Event :=
  let time_window_start := item.created_at - 24 * 3600
  let h3_index := h3 la lo
  let matching := events.filter (matches_query h3_index time_window_start item.disaster_type)
  matching.insertionSort (fun a b => dist_to_centroid d la lo a ≤ dist_to_centroid d la lo b)

/-- `EventService.process_new_item` (`event_service.py` lines 26-42): look
the item up by id; return `None` when it is missing or a coordinate is
falsy (`not item.lat` is true for `None` AND for `0.0`); otherwise add the
item to the closest matching event, or create a singleton event. -/
def process_new_item (d : DistFn) (h3 : H3Fn) (items_table : List Item)
    (events_table : List Event) (item_id : Nat) : Option Event :=
  match items_table.find? (fun i => i.id == item_id) with
  | none => none
  | some item =>
    match item.lat, item.lon with
    | some la, some lo =>
      if la = 0 ∨ lo = 0 then none
      else
        match find_matching_events d h3 events_table item la lo with
        | best_event :: _ => some (add_item_to_event h3 item best_event)
        | [] => create_new_event h3 [item]
    | _, _ => none

/-- The validity filter of `EventService._cluster_items` (line 197):
`item.lat is not None and item.lon is not None`. -/
def valid_coords (i : Item) : Bool :=
  i.lat.isSome && i.lon.isSome

/-- The grouping loop of `EventService._cluster_items` (lines 219-227):
walk the DBSCAN labels with their positions, skip noise (`-1`), and append
`items[idx]` to the label's bucket, emitting buckets in label-first-seen
order (Python dicts preserve insertion order).  Note the loop indexes the
ORIGINAL `items` list with positions taken from the filtered coordinate
matrix. -/
def group_by_label (labels : List ℤ) (items : List Item) : List (List Item) :=
  let step := fun (acc : List (ℤ × List Item)) (p : Nat × ℤ) =>
    if p.2 = -1 then acc
    else if acc.any (fun q => q.1 == p.2) then
      acc.map (fun q => if q.1 = p.2 then (q.1, q.2 ++ [items.getD p.1 default]) else q)
    else acc ++ [(p.2, [items.getD p.1 default])]
  ((labels.enum.foldl step []).map (fun q => q.2))

/-- `EventService._cluster_items` (`event_service.py` lines 188-227) with
the DBSCAN run abstracted as `labels_of` (applied to the items that passed
the coordinate filter): empty input or fewer than `min_cluster_size = 2`
valid rows yields no clusters. -/
def cluster_items (labels_of : List Item → List ℤ) (items : List Item) : List (List Item) :=
  if items = [] then []
  else
    let valid := items.filter valid_coords
    if valid.length < 2 then []
    else group_by_label (labels_of valid) items

/-- `EventService.recluster_events` (`event_service.py` lines 44-66) with
the unclustered pool passed explicitly: empty pool yields no events,
otherwise one event per cluster (skipping `None` results). -/
def recluster_events (labels_of : List Item → List ℤ) (h3 : H3Fn)
    (unclustered_items : List Item) : List Event :=
  if unclustered_items = [] then []
  else (cluster_items labels_of unclustered_items).filterMap (create_new_event h3)

/-! ### Spec-side definitions (for comparison with the embedded code) -/

/-- The members "with coordinates" in the sense of the spec's centroid/bbox
properties P2/P3: both latitude and longitude non-null. -/
def coord_members (items : List Item) : List Item :=
  items.filter (fun i => i.lat.isSome && i.lon.isSome)

/-- Latitudes of the members with coordinates. -/
def member_lats (items : List Item) : List ℚ :=
  (coord_members items).filterMap (fun i => i.lat)

/-- Longitudes of the members with coordinates. -/
def member_lons (items : List Item) : List ℚ :=
  (coord_members items).filterMap (fun i => i.lon)

/-- The spec's P2/P3 geography invariant for an event: whenever some member
has coordinates, the centroid is the unweighted mean of the coordinate
members' latitudes/longitudes and the bbox is
`[min lon, min lat, max lon, max lat]` over the same members. -/
def geography_consistent (ev : Event) : Prop :=
  coord_members ev.items ≠ [] →
    (ev.centroid_lat = some ((member_lats ev.items).sum / ((member_lats ev.items).length : ℚ)) ∧
     ev.centroid_lon = some ((member_lons ev.items).sum / ((member_lons ev.items).length : ℚ)) ∧
     ev.bbox = some [list_min (member_lons ev.items), list_min (member_lats ev.items),
                     list_max (member_lons ev.items), list_max (member_lats ev.items)])

/-- Modelled from the spec's title sentence, for comparison with the code:
"the most frequently occurring non-null `place` value among members (mode;
ties broken by first occurrence) or a placeholder \x22an unknown location\x22
if none".  The code instead takes the FIRST non-null place. -/
def spec_location (items : List Item) : String :=
  mode_first (items.filterMap (fun i => truthy_str i.place)) "an unknown location"

/-! ### Concrete fixtures used by witnesses and counterexamples -/

/-- A concrete H3 indexing function. -/
def h3c : H3Fn := fun _ _ => "cell"

/-- A concrete distance function. -/
def d0 : DistFn := fun _ _ => 0

/-- A concrete DBSCAN labelling function. -/
def lbl0 : List Item → List ℤ := fun _ => []

/-- Fixture report: place "Alpha". -/
def iA : Item :=
  { id := 1, source := some "X", place := some "Alpha", lat := some 10, lon := some 20,
    disaster_type := some "flood", created_at := 100 }

/-- Fixture report: place "Beta". -/
def iB : Item :=
  { id := 2, source := some "REDDIT", place := some "Beta", lat := some 10, lon := some 20,
    disaster_type := some "flood", created_at := 200 }

/-- Fixture report: place "Beta", third distinct source. -/
def iC : Item :=
  { id := 3, source := some "CITIZEN", place := some "Beta", lat := some 13, lon := some 23,
    disaster_type := some "flood", created_at := 300 }

/-- Fixture report from the official USGS source. -/
def iUSGS : Item :=
  { id := 4, source := some "USGS", place := none, lat := some 5, lon := some 6,
    disaster_type := some "earthquake", created_at := 400 }

/-- Fixture report with a null latitude. -/
def iNullLat : Item :=
  { id := 11, source := some "X", place := none, lat := none, lon := some 5,
    disaster_type := some "flood", created_at := 100 }

/-- Fixture report with a null longitude. -/
def iNullLon : Item :=
  { id := 12, source := some "X", place := none, lat := some 5, lon := none,
    disaster_type := some "flood", created_at := 100 }

/-- Fixture report sitting exactly on the equator (`lat = 0`). -/
def iZeroLat : Item :=
  { id := 13, source := some "X", place := none, lat := some 0, lon := some 77,
    disaster_type := some "flood", created_at := 100 }

/-- Fixture report with coordinates but no disaster type. -/
def iNoType : Item :=
  { id := 7, source := some "X", place := none, lat := some 1, lon := some 1,
    disaster_type := none, created_at := 1000 }

/-- Fixture event with a null disaster type, in the cell and window of
`iNoType`. -/
def evC9 : Event :=
  { disaster_type := none, h3_index := some "cell", start_time := some 50,
    centroid_lat := some 1, centroid_lon := some 1, items := [iB] }

/-- Fixture event containing an official-source member. -/
def evOff : Event := { items := [iUSGS, iA] }

/-- Fixture event with exactly 3 distinct non-official sources. -/
def ev3 : Event := { items := [iA, iB, iC] }

/-- Fixture event with exactly 2 distinct non-official sources. -/
def ev2 : Event := { items := [iA, iB] }

/-- Fixture event that already contains `iB`. -/
def evB : Event := { items := [iB] }

/-- Fixture event with no members. -/
def evEmpty : Event := {}

/-- The event built by the code from the three fixture reports. -/
def eW : Event := (create_new_event h3c [iA, iB, iC]).getD default

/-- The event built by the code from the single fixture report `iA`. -/
def eW1 : Event := (create_new_event h3c [iA]).getD default

/-! ### Helper lemmas: field preservation -/

/-- Verification does not change the member list. -/
theorem update_verification_items (ev : Event) :
    (Event.update_verification ev).items = ev.items := by
  simp only [Event.update_verification]
  split <;> rfl

/-- Verification does not change the centroid, bbox, counts, title or
description. -/
theorem update_verification_fields (ev : Event) :
    (Event.update_verification ev).centroid_lat = ev.centroid_lat ∧
    (Event.update_verification ev).centroid_lon = ev.centroid_lon ∧
    (Event.update_verification ev).bbox = ev.bbox ∧
    (Event.update_verification ev).item_count = ev.item_count ∧
    (Event.update_verification ev).source_count = ev.source_count ∧
    (Event.update_verification ev).title = ev.title ∧
    (Event.update_verification ev).description = ev.description := by
  simp only [Event.update_verification]
  split <;> exact ⟨rfl, rfl, rfl, rfl, rfl, rfl, rfl⟩

/-- Metrics recomputation does not change the member list. -/
theorem update_metrics_items (ev : Event) :
    (Event.update_metrics ev).items = ev.items := by
  simp only [Event.update_metrics]
  split
  · rfl
  · rw [update_verification_items]

/-- Metrics recomputation does not change the centroid, bbox, title or
description. -/
theorem update_metrics_fields (ev : Event) :
    (Event.update_metrics ev).centroid_lat = ev.centroid_lat ∧
    (Event.update_metrics ev).centroid_lon = ev.centroid_lon ∧
    (Event.update_metrics ev).bbox = ev.bbox ∧
    (Event.update_metrics ev).title = ev.title ∧
    (Event.update_metrics ev).description = ev.description := by
  simp only [Event.update_metrics]
  split
  · exact ⟨rfl, rfl, rfl, rfl, rfl⟩
  · obtain ⟨h1, h2, h3, _, _, h6, h7⟩ := update_verification_fields
      { ev with item_count := ev.items.length, source_count := distinct_source_count ev.items }
    exact ⟨h1, h2, h3, h6, h7⟩

/-- On a non-empty member list, metrics recomputation sets the item and
source counts. -/
theorem update_metrics_counts (ev : Event) (h : ev.items ≠ []) :
    (Event.update_metrics ev).item_count = ev.items.length ∧
    (Event.update_metrics ev).source_count = distinct_source_count ev.items := by
  simp only [Event.update_metrics, if_neg h]
  obtain ⟨_, _, _, h4, h5, _, _⟩ := update_verification_fields
    { ev with item_count := ev.items.length, source_count := distinct_source_count ev.items }
  exact ⟨h4, h5⟩

/-- Geography recomputation does not change the member list. -/
theorem update_event_geography_items (h3 : H3Fn) (ev : Event) :
    (update_event_geography h3 ev).items = ev.items := by
  simp only [update_event_geography]
  split
  · rfl
  · split <;> rfl

/-- Geography recomputation does not change the counts, verification state,
time bounds, disaster type, title or description. -/
theorem update_event_geography_fields (h3 : H3Fn) (ev : Event) :
    (update_event_geography h3 ev).item_count = ev.item_count ∧
    (update_event_geography h3 ev).source_count = ev.source_count ∧
    (update_event_geography h3 ev).is_verified = ev.is_verified ∧
    (update_event_geography h3 ev).verification_reason = ev.verification_reason ∧
    (update_event_geography h3 ev).start_time = ev.start_time ∧
    (update_event_geography h3 ev).end_time = ev.end_time ∧
    (update_event_geography h3 ev).disaster_type = ev.disaster_type ∧
    (update_event_geography h3 ev).title = ev.title ∧
    (update_event_geography h3 ev).description = ev.description := by
  simp only [update_event_geography]
  split
  · exact ⟨rfl, rfl, rfl, rfl, rfl, rfl, rfl, rfl, rfl⟩
  · split <;> exact ⟨rfl, rfl, rfl, rfl, rfl, rfl, rfl, rfl, rfl⟩

/-- Summary generation does not change the member list, geography, counts or
verification state. -/
theorem generate_event_summary_fields (ev : Event) :
    (generate_event_summary ev).items = ev.items ∧
    (generate_event_summary ev).centroid_lat = ev.centroid_lat ∧
    (generate_event_summary ev).centroid_lon = ev.centroid_lon ∧
    (generate_event_summary ev).bbox = ev.bbox ∧
    (generate_event_summary ev).item_count = ev.item_count ∧
    (generate_event_summary ev).source_count = ev.source_count ∧
    (generate_event_summary ev).is_verified = ev.is_verified ∧
    (generate_event_summary ev).verification_reason = ev.verification_reason := by
  simp only [generate_event_summary]
  split <;> exact ⟨rfl, rfl, rfl, rfl, rfl, rfl, rfl, rfl⟩

/-- Adding a report that is already a member of the event is a no-op. -/
theorem add_item_mem_noop (h3 : H3Fn) (item : Item) (ev : Event)
    (h : item ∈ ev.items) : add_item_to_event h3 item ev = ev := by
  simp only [add_item_to_event, if_pos h]

/-- After the non-trivial branch, the new member list is the old one with the
item appended. -/
theorem add_item_items (h3 : H3Fn) (item : Item) (ev : Event)
    (h : item ∉ ev.items) :
    (add_item_to_event h3 item ev).items = ev.items ++ [item] := by
  simp only [add_item_to_event, if_neg h]
  rw [update_metrics_items, update_event_geography_items]

/-- C2: any recomputation of the verification state of an event containing
an official-source member yields `is_verified = true` with reason
`"official_source"`, whatever the prior state and the source count. -/
theorem official_source_forces_verified (ev : Event)
    (h : ∃ i ∈ ev.items, i.source = some "USGS" ∨ i.source = some "GDACS") :
    (Event.update_metrics ev).is_verified = true ∧
    (Event.update_metrics ev).verification_reason = some "official_source" := by
  obtain ⟨i, hi, hsrc⟩ := h
  have hne : ev.items ≠ [] := by
    intro he
    rw [he] at hi
    exact (List.not_mem_nil i) hi
  have hoff : has_official_source ev.items = true := by
    unfold has_official_source
    rw [List.any_eq_true]
    refine ⟨i, hi, ?_⟩
    rcases hsrc with h1 | h1 <;> simp [h1]
  simp only [Event.update_metrics, if_neg hne, Event.update_verification, hoff]
  simp

/-- Witness for `official_source_forces_verified` at `evOff`. -/
theorem official_source_forces_verified_witness :
    (Event.update_metrics evOff).is_verified = true ∧
    (Event.update_metrics evOff).verification_reason = some "official_source" :=
  official_source_forces_verified evOff ⟨iUSGS, by decide, Or.inl rfl⟩

/-- C3: without any official-source member, a recomputation with exactly 3
distinct (truthy) member sources verifies the event with reason
`"multiple_sources_3"`, while exactly 2 distinct sources leaves it
unverified with a null reason. -/
theorem source_count_threshold (ev : Event)
    (hno : ∀ i ∈ ev.items, i.source ≠ some "USGS" ∧ i.source ≠ some "GDACS") :
    (distinct_source_count ev.items = 3 →
      (Event.update_metrics ev).is_verified = true ∧
      (Event.update_metrics ev).verification_reason = some "multiple_sources_3") ∧
    (distinct_source_count ev.items = 2 →
      (Event.update_metrics ev).is_verified = false ∧
      (Event.update_metrics ev).verification_reason = none) := by
  have hoff : has_official_source ev.items = false := by
    unfold has_official_source
    rw [List.any_eq_false]
    intro i hi
    obtain ⟨h1, h2⟩ := hno i hi
    simp [h1, h2]
  constructor
  · intro hc
    have hne : ev.items ≠ [] := by
      intro he
      rw [he] at hc
      simp [distinct_source_count] at hc
    simp only [Event.update_metrics, if_neg hne, Event.update_verification, hoff, hc]
    refine ⟨by simp, ?_⟩
    norm_num
    rfl
  · intro hc
    have hne : ev.items ≠ [] := by
      intro he
      rw [he] at hc
      simp [distinct_source_count] at hc
    simp only [Event.update_metrics, if_neg hne, Event.update_verification, hoff, hc]
    norm_num

/-- Witness for `source_count_threshold` at `ev3` and `ev2`. -/
theorem source_count_threshold_witness :
    ((Event.update_metrics ev3).is_verified = true ∧
     (Event.update_metrics ev3).verification_reason = some "multiple_sources_3") ∧
    ((Event.update_metrics ev2).is_verified = false ∧
     (Event.update_metrics ev2).verification_reason = none) :=
  ⟨(source_count_threshold ev3 (by decide)).1 (by decide),
   (source_count_threshold ev2 (by decide)).2 (by decide)⟩

/-- C4: `add_member` is idempotent — a second identical call is a no-op and
returns a state identical (in every field) to the first call's result, and
adding an existing member changes nothing. -/
theorem add_item_idempotent (h3 : H3Fn) (ev : Event) (item : Item) :
    (item ∈ ev.items → add_item_to_event h3 item ev = ev) ∧
    add_item_to_event h3 item (add_item_to_event h3 item ev) =
      add_item_to_event h3 item ev := by
  refine ⟨fun h => add_item_mem_noop h3 item ev h, ?_⟩
  by_cases hmem : item ∈ ev.items
  · rw [add_item_mem_noop h3 item ev hmem]
    exact add_item_mem_noop h3 item ev hmem
  · apply add_item_mem_noop
    rw [add_item_items h3 item ev hmem]
    exact List.mem_append_right _ (List.mem_singleton.mpr rfl)

/-- Witness for `add_item_idempotent` at event `evB`, which already contains
`iB`. -/
theorem add_item_idempotent_witness :
    add_item_to_event h3c iB evB = evB ∧
    add_item_to_event h3c iB (add_item_to_event h3c iB evB) =
      add_item_to_event h3c iB evB :=
  ⟨(add_item_idempotent h3c evB iB).1 (by decide),
   (add_item_idempotent h3c evB iB).2⟩

/-- When every member's latitude is null exactly when its longitude is, the
code's latitude list (nulls filtered independently) coincides with the
latitudes of the members that have both coordinates. -/
theorem filterMap_lat_of_nullity (items : List Item)
    (h : ∀ i ∈ items, i.lat.isSome ↔ i.lon.isSome) :
    items.filterMap (fun i => i.lat) = member_lats items := by
  induction items with
  | nil => rfl
  | cons i t ih =>
    have hi := h i (List.mem_cons_self i t)
    have ht := fun j hj => h j (List.mem_cons_of_mem i hj)
    cases hl : i.lat with
    | none =>
      have hlon : i.lon.isSome = false := by
        rcases hlo : i.lon with _ | b
        · rfl
        · have : i.lat.isSome = true := hi.mpr (by rw [hlo]; rfl)
          rw [hl] at this
          exact absurd this (by simp)
      simp only [member_lats, coord_members, List.filterMap_cons, List.filter_cons, hl,
        hlon, Option.isSome_none, Bool.false_and, Bool.and_false, if_neg Bool.false_ne_true]
      exact ih ht
    | some a =>
      have hlon : i.lon.isSome = true := hi.mp (by rw [hl]; rfl)
      simp only [member_lats, coord_members, List.filterMap_cons, List.filter_cons, hl,
        hlon, Option.isSome_some, Bool.and_self, if_pos rfl]
      simp only [member_lats, coord_members] at ih
      rw [ih ht]
      simp [List.filterMap_cons, hl, member_lats, coord_members]

/-- Longitude counterpart of `filterMap_lat_of_nullity`. -/
theorem filterMap_lon_of_nullity (items : List Item)
    (h : ∀ i ∈ items, i.lat.isSome ↔ i.lon.isSome) :
    items.filterMap (fun i => i.lon) = member_lons items := by
  induction items with
  | nil => rfl
  | cons i t ih =>
    have hi := h i (List.mem_cons_self i t)
    have ht := fun j hj => h j (List.mem_cons_of_mem i hj)
    cases hl : i.lon with
    | none =>
      have hlat : i.lat.isSome = false := by
        rcases hla : i.lat with _ | b
        · rfl
        · have : i.lon.isSome = true := hi.mp (by rw [hla]; rfl)
          rw [hl] at this
          exact absurd this (by simp)
      simp only [member_lons, coord_members, List.filterMap_cons, List.filter_cons, hl,
        hlat, Bool.false_and, if_neg Bool.false_ne_true]
      exact ih ht
    | some a =>
      have hlat : i.lat.isSome = true := hi.mpr (by rw [hl]; rfl)
      simp only [member_lons, coord_members, List.filterMap_cons, List.filter_cons, hl,
        hlat, Option.isSome_some, Bool.and_self, if_pos rfl]
      simp only [member_lons, coord_members] at ih
      rw [ih ht]
      simp [List.filterMap_cons, hl, member_lons, coord_members]

/-- A non-empty coordinate-member list yields a non-empty latitude list. -/
theorem member_lats_ne_nil (items : List Item) (h : coord_members items ≠ []) :
    member_lats items ≠ [] := by
  cases hcm : coord_members items with
  | nil => exact absurd hcm h
  | cons j js =>
    have hj : j ∈ coord_members items := hcm ▸ List.mem_cons_self j js
    have hsome : j.lat.isSome = true := by
      have hcond := (List.mem_filter.mp hj).2
      simp only [Bool.and_eq_true] at hcond
      exact hcond.1
    unfold member_lats
    rw [hcm]
    cases hjl : j.lat with
    | none => rw [hjl] at hsome; exact absurd hsome (by simp)
    | some a => simp [List.filterMap_cons, hjl]

/-- A non-empty coordinate-member list yields a non-empty longitude list. -/
theorem member_lons_ne_nil (items : List Item) (h : coord_members items ≠ []) :
    member_lons items ≠ [] := by
  cases hcm : coord_members items with
  | nil => exact absurd hcm h
  | cons j js =>
    have hj : j ∈ coord_members items := hcm ▸ List.mem_cons_self j js
    have hsome : j.lon.isSome = true := by
      have hcond := (List.mem_filter.mp hj).2
      simp only [Bool.and_eq_true] at hcond
      exact hcond.2
    unfold member_lons
    rw [hcm]
    cases hjl : j.lon with
    | none => rw [hjl] at hsome; exact absurd hsome (by simp)
    | some a => simp [List.filterMap_cons, hjl]

/-- The geography fields written by the recomputation when both coordinate
lists are non-empty. -/
theorem update_event_geography_pos (h3 : H3Fn) (ev : Event)
    (hitems : ev.items ≠ [])
    (hlats : ev.items.filterMap (fun i => i.lat) ≠ [])
    (hlons : ev.items.filterMap (fun i => i.lon) ≠ []) :
    (update_event_geography h3 ev).centroid_lat =
      some ((ev.items.filterMap (fun i => i.lat)).sum /
        ((ev.items.filterMap (fun i => i.lat)).length : ℚ)) ∧
    (update_event_geography h3 ev).centroid_lon =
      some ((ev.items.filterMap (fun i => i.lon)).sum /
        ((ev.items.filterMap (fun i => i.lon)).length : ℚ)) ∧
    (update_event_geography h3 ev).bbox =
      some [list_min (ev.items.filterMap (fun i => i.lon)),
            list_min (ev.items.filterMap (fun i => i.lat)),
            list_max (ev.items.filterMap (fun i => i.lon)),
            list_max (ev.items.filterMap (fun i => i.lat))] := by
  unfold update_event_geography
  rw [if_neg hitems]
  dsimp only
  rw [if_pos (And.intro hlats hlons)]
  exact ⟨rfl, rfl, rfl⟩

/-- After a geography recomputation on a member list whose latitude and
longitude nulls coincide per member, the spec's centroid/bbox invariant
holds. -/
theorem geography_after_update (h3 : H3Fn) (ev : Event)
    (h : ∀ i ∈ ev.items, i.lat.isSome ↔ i.lon.isSome) :
    geography_consistent (update_event_geography h3 ev) := by
  unfold geography_consistent
  rw [update_event_geography_items]
  intro hne
  have hitems : ev.items ≠ [] := by
    intro he
    rw [he] at hne
    exact hne rfl
  have hla := filterMap_lat_of_nullity ev.items h
  have hlo := filterMap_lon_of_nullity ev.items h
  have hlats : ev.items.filterMap (fun i => i.lat) ≠ [] := by
    rw [hla]; exact member_lats_ne_nil ev.items hne
  have hlons : ev.items.filterMap (fun i => i.lon) ≠ [] := by
    rw [hlo]; exact member_lons_ne_nil ev.items hne
  obtain ⟨h1, h2, h3'⟩ := update_event_geography_pos h3 ev hitems hlats hlons
  rw [hla] at h1
  rw [hlo] at h2
  rw [hla, hlo] at h3'
  exact ⟨h1, h2, h3'⟩

/-- Metrics recomputation does not affect the geography invariant. -/
theorem geography_consistent_update_metrics (ev : Event) :
    geography_consistent (Event.update_metrics ev) ↔ geography_consistent ev := by
  unfold geography_consistent
  rw [update_metrics_items]
  obtain ⟨h1, h2, h3, _, _⟩ := update_metrics_fields ev
  rw [h1, h2, h3]

/-- Summary generation does not affect the geography invariant. -/
theorem geography_consistent_generate_summary (ev : Event) :
    geography_consistent (generate_event_summary ev) ↔ geography_consistent ev := by
  unfold geography_consistent
  obtain ⟨h0, h1, h2, h3, _, _, _, _⟩ := generate_event_summary_fields ev
  rw [h0, h1, h2, h3]

/-- C5: after `initialize` (event creation) and after every `add_member`
call, the centroid is the exact unweighted mean and the bbox the exact
min/max envelope of the coordinate members — provided each member's
latitude is null exactly when its longitude is (the reading under which the
spec's "members with non-null coordinates" is unambiguous). -/
theorem centroid_bbox_after_calls (h3 : H3Fn) :
    (∀ (items : List Item) (e : Event),
      (∀ i ∈ items, i.lat.isSome ↔ i.lon.isSome) →
      create_new_event h3 items = some e → geography_consistent e) ∧
    (∀ (ev : Event) (item : Item),
      (∀ i ∈ ev.items ++ [item], i.lat.isSome ↔ i.lon.isSome) →
      geography_consistent ev →
      geography_consistent (add_item_to_event h3 item ev)) := by
  constructor
  · intro items e hnull hce
    cases items with
    | nil => exact absurd hce (by simp [create_new_event])
    | cons i0 rest =>
      have he : e = generate_event_summary (Event.update_metrics (update_event_geography h3
          { disaster_type := i0.disaster_type,
            start_time := some (list_min ((i0 :: rest).map (fun i => i.created_at))),
            end_time := some (list_max ((i0 :: rest).map (fun i => i.created_at))),
            items := i0 :: rest })) := by
        unfold create_new_event at hce
        exact (Option.some.inj hce).symm
      rw [he, geography_consistent_generate_summary, geography_consistent_update_metrics]
      exact geography_after_update h3 _ hnull
  · intro ev item hnull hgc
    by_cases hmem : item ∈ ev.items
    · rw [add_item_mem_noop h3 item ev hmem]
      exact hgc
    · unfold add_item_to_event
      rw [if_neg hmem]
      dsimp only
      rw [geography_consistent_update_metrics]
      exact geography_after_update h3 _ hnull

/-- Witness for `centroid_bbox_after_calls`: the event created from `iA`
and the event obtained by adding `iC` to the empty event both satisfy the
invariant. -/
theorem centroid_bbox_after_calls_witness :
    geography_consistent eW1 ∧ geography_consistent (add_item_to_event h3c iC evEmpty) :=
  ⟨(centroid_bbox_after_calls h3c).1 [iA] eW1 (by decide) rfl,
   (centroid_bbox_after_calls h3c).2 evEmpty iC (by decide)
     (by intro hc; exact absurd rfl hc)⟩

/-- C6: the matcher returns exactly the events passing the cell, type and
24-hour-window filter (as a permutation of the filtered table), in
ascending order of distance from the report to each event's centroid; the
filter accepts precisely the events with the report's H3 cell, a
`start_time` no older than `created_at` minus 24 hours, and the report's
disaster type. -/
theorem find_matching_events_spec (d : DistFn) (h3 : H3Fn) (events : List Event)
    (item : Item) (la lo : ℚ) :
    (find_matching_events d h3 events item la lo).Perm
      (events.filter (matches_query (h3 la lo) (item.created_at - 24 * 3600) item.disaster_type)) ∧
    List.Sorted (fun a b => dist_to_centroid d la lo a ≤ dist_to_centroid d la lo b)
      (find_matching_events d h3 events item la lo) ∧
    (∀ e : Event,
      matches_query (h3 la lo) (item.created_at - 24 * 3600) item.disaster_type e = true ↔
        (e.h3_index = some (h3 la lo) ∧
         (∃ st : ℤ, e.start_time = some st ∧ item.created_at - 24 * 3600 ≤ st) ∧
         e.disaster_type = item.disaster_type)) := by
  refine ⟨?_, ?_, ?_⟩
  · unfold find_matching_events
    exact List.perm_insertionSort _ _
  · unfold find_matching_events
    haveI : IsTotal Event (fun a b => dist_to_centroid d la lo a ≤ dist_to_centroid d la lo b) :=
      ⟨fun a b => le_total _ _⟩
    haveI : IsTrans Event (fun a b => dist_to_centroid d la lo a ≤ dist_to_centroid d la lo b) :=
      ⟨fun a b c hab hbc => le_trans hab hbc⟩
    exact List.sorted_insertionSort _ _
  · intro e
    unfold matches_query
    cases hst : e.start_time with
    | none => simp [hst]
    | some st => simp [hst, and_assoc]

/-- The argmax-by-count fold returns the unique maximiser `t` of the count,
from any start `b` in the list such that `t` is the start or occurs in the
remaining suffix. -/
theorem foldl_mode_eq (l : List String) (t : String)
    (hmax : ∀ u ∈ l, l.count u ≤ l.count t)
    (huniq : ∀ u ∈ l, l.count u = l.count t → u = t) :
    ∀ (ys : List String) (b : String), (∀ y ∈ ys, y ∈ l) → b ∈ l →
      (b = t ∨ t ∈ ys) →
      ys.foldl (fun best s => if l.count best < l.count s then s else best) b = t := by
  intro ys
  induction ys with
  | nil =>
    intro b _ _ hbt
    rcases hbt with h | h
    · exact h
    · exact absurd h (List.not_mem_nil t)
  | cons s rest ih =>
    intro b hsub hb hbt
    rw [List.foldl_cons]
    have hs : s ∈ l := hsub s (List.mem_cons_self s rest)
    have hrest : ∀ y ∈ rest, y ∈ l := fun y hy => hsub y (List.mem_cons_of_mem s hy)
    by_cases hbeq : b = t
    · rw [if_neg (by rw [hbeq]; exact not_lt.mpr (hmax s hs))]
      exact ih b hrest hb (Or.inl hbeq)
    · have htin : t ∈ s :: rest := hbt.resolve_left hbeq
      rcases List.mem_cons.mp htin with hts | htr
      · have hlt : l.count b < l.count s := by
          rw [← hts]
          exact lt_of_le_of_ne (hmax b hb) (fun he => hbeq (huniq b hb he))
        rw [if_pos hlt]
        exact ih s hrest hs (Or.inl hts.symm)
      · by_cases hlt : l.count b < l.count s
        · rw [if_pos hlt]
          exact ih s hrest hs (Or.inr htr)
        · rw [if_neg hlt]
          exact ih b hrest hb (Or.inr htr)

/-- When the count has a unique maximiser `t`, the model of
`max(set(l), key=l.count)` returns `t` (so the result does not depend on the
unspecified set iteration order). -/
theorem mode_first_eq (l : List String) (dflt t : String) (ht : t ∈ l)
    (hmax : ∀ u ∈ l, l.count u ≤ l.count t)
    (huniq : ∀ u ∈ l, l.count u = l.count t → u = t) :
    mode_first l dflt = t := by
  cases l with
  | nil => exact absurd ht (List.not_mem_nil t)
  | cons x xs =>
    unfold mode_first
    refine foldl_mode_eq (x :: xs) t hmax huniq xs x
      (fun y hy => List.mem_cons_of_mem x hy) (List.mem_cons_self x xs) ?_
    rcases List.mem_cons.mp ht with h | h
    · exact Or.inl h.symm
    · exact Or.inr h

/-- Output of the summary pass on a non-empty member list whose truthy
disaster types have the unique count-maximiser `t`. -/
theorem generate_event_summary_output (ev : Event) (t : String)
    (hne : ev.items ≠ [])
    (ht : t ∈ ev.items.filterMap (fun i => truthy_str i.disaster_type))
    (hmax : ∀ u ∈ ev.items.filterMap (fun i => truthy_str i.disaster_type),
      (ev.items.filterMap (fun i => truthy_str i.disaster_type)).count u ≤
        (ev.items.filterMap (fun i => truthy_str i.disaster_type)).count t)
    (huniq : ∀ u ∈ ev.items.filterMap (fun i => truthy_str i.disaster_type),
      (ev.items.filterMap (fun i => truthy_str i.disaster_type)).count u =
        (ev.items.filterMap (fun i => truthy_str i.disaster_type)).count t → u = t) :
    (generate_event_summary ev).title = some (str_capitalize t ++ " in "
      ++ (ev.items.filterMap (fun i => truthy_str i.place)).headD "an unknown location") ∧
    (generate_event_summary ev).description = some ("A " ++ t ++ " event was reported in "
      ++ (ev.items.filterMap (fun i => truthy_str i.place)).headD "an unknown location"
      ++ " with " ++ toString ev.items.length ++ " related reports from "
      ++ toString ev.source_count ++ " different sources.") := by
  have hmode := mode_first_eq (ev.items.filterMap (fun i => truthy_str i.disaster_type))
    "disaster" t ht hmax huniq
  unfold generate_event_summary
  rw [if_neg hne]
  dsimp only
  rw [hmode]
  exact ⟨rfl, rfl⟩

/-- C7 (amended): at event creation on a non-empty member list whose truthy
disaster types have a unique most-common value `t`, the title is the
capitalised `t` followed by the FIRST truthy place (or the placeholder),
and the description is the fixed template embedding `item_count` and
`source_count`. -/
theorem title_and_description_generated (h3 : H3Fn) (items : List Item) (e : Event) (t : String)
    (hce : create_new_event h3 items = some e)
    (ht : t ∈ items.filterMap (fun i => truthy_str i.disaster_type))
    (hmax : ∀ u ∈ items.filterMap (fun i => truthy_str i.disaster_type),
      (items.filterMap (fun i => truthy_str i.disaster_type)).count u ≤
        (items.filterMap (fun i => truthy_str i.disaster_type)).count t)
    (huniq : ∀ u ∈ items.filterMap (fun i => truthy_str i.disaster_type),
      (items.filterMap (fun i => truthy_str i.disaster_type)).count u =
        (items.filterMap (fun i => truthy_str i.disaster_type)).count t → u = t) :
    e.title = some (str_capitalize t ++ " in "
      ++ (items.filterMap (fun i => truthy_str i.place)).headD "an unknown location") ∧
    e.description = some ("A " ++ t ++ " event was reported in "
      ++ (items.filterMap (fun i => truthy_str i.place)).headD "an unknown location"
      ++ " with " ++ toString e.item_count ++ " related reports from "
      ++ toString e.source_count ++ " different sources.") := by
  cases items with
  | nil =>
    rw [List.filterMap_nil] at ht
    exact absurd ht (List.not_mem_nil t)
  | cons i0 rest =>
    have he : e = generate_event_summary (Event.update_metrics (update_event_geography h3
        { disaster_type := i0.disaster_type,
          start_time := some (list_min ((i0 :: rest).map (fun i => i.created_at))),
          end_time := some (list_max ((i0 :: rest).map (fun i => i.created_at))),
          items := i0 :: rest })) := by
      unfold create_new_event at hce
      exact (Option.some.inj hce).symm
    set EV0 : Event :=
      { disaster_type := i0.disaster_type,
        start_time := some (list_min ((i0 :: rest).map (fun i => i.created_at))),
        end_time := some (list_max ((i0 :: rest).map (fun i => i.created_at))),
        items := i0 :: rest } with hEV0
    have hgeoitems : (update_event_geography h3 EV0).items = i0 :: rest := by
      rw [update_event_geography_items]
    have hXitems : (Event.update_metrics (update_event_geography h3 EV0)).items = i0 :: rest := by
      rw [update_metrics_items, hgeoitems]
    have hXne : (Event.update_metrics (update_event_geography h3 EV0)).items ≠ [] := by
      rw [hXitems]
      exact List.cons_ne_nil i0 rest
    have hXcounts := update_metrics_counts (update_event_geography h3 EV0)
      (by rw [hgeoitems]; exact List.cons_ne_nil i0 rest)
    rw [← hXitems] at ht hmax huniq
    have hsum := generate_event_summary_output
      (Event.update_metrics (update_event_geography h3 EV0)) t hXne ht hmax huniq
    obtain ⟨hgi, _, _, _, hgic, hgsc, _, _⟩ :=
      generate_event_summary_fields (Event.update_metrics (update_event_geography h3 EV0))
    rw [he]
    rw [hgic, hgsc, hXcounts.1, hXcounts.2, hgeoitems]
    rw [hsum.1, hsum.2, hXitems, hXcounts.2, hgeoitems]
    exact ⟨rfl, rfl⟩

/-- C7 counterexample: for members with place values Alpha, Beta, Beta the
code titles the event "Flood in Alpha" (first non-null place), while the
spec's rule (mode of places, ties by first occurrence) yields location
"Beta", hence title "Flood in Beta". -/
theorem title_mode_counterexample :
    (create_new_event h3c [iA, iB, iC]).map (fun e => e.title) = some (some "Flood in Alpha") ∧
    str_capitalize (mode_first ([iA, iB, iC].filterMap (fun i => truthy_str i.disaster_type))
        "disaster") ++ " in " ++ spec_location [iA, iB, iC] = "Flood in Beta" ∧
    ("Flood in Alpha" : String) ≠ "Flood in Beta" := by
  refine ⟨by decide, by decide, by decide⟩

/-- Witness for `title_and_description_generated` at the three fixture
reports (unique most-common type "flood"). -/
theorem title_and_description_generated_witness :
    eW.title = some (str_capitalize "flood" ++ " in "
      ++ ([iA, iB, iC].filterMap (fun i => truthy_str i.place)).headD "an unknown location") ∧
    eW.description = some ("A " ++ "flood" ++ " event was reported in "
      ++ ([iA, iB, iC].filterMap (fun i => truthy_str i.place)).headD "an unknown location"
      ++ " with " ++ toString eW.item_count ++ " related reports from "
      ++ toString eW.source_count ++ " different sources.") :=
  title_and_description_generated h3c [iA, iB, iC] eW "flood" rfl (by decide) (by decide)
    (by decide)


/-- C1 (amended): a report found in the table with a null latitude or
longitude makes `process_new_item` return `None`: no matching is attempted
and no event is created. -/
theorem null_coord_returns_none (d : DistFn) (h3 : H3Fn) (items_table : List Item)
    (events_table : List Event) (item_id : Nat) (itm : Item)
    (hfind : items_table.find? (fun i => i.id == item_id) = some itm)
    (hnull : itm.lat = none ∨ itm.lon = none) :
    process_new_item d h3 items_table events_table item_id = none := by
  unfold process_new_item
  rw [hfind]
  dsimp only
  rcases hlat : itm.lat with _ | la
  · cases itm.lon <;> rfl
  · rcases hlon : itm.lon with _ | lo
    · rfl
    · exfalso
      rcases hnull with h | h
      · rw [hlat] at h
        exact Option.noConfusion h
      · rw [hlon] at h
        exact Option.noConfusion h

/-- Witness for `null_coord_returns_none` at the null-longitude fixture. -/
theorem null_coord_returns_none_witness :
    process_new_item d0 h3c [iNullLon] [] 12 = none :=
  null_coord_returns_none d0 h3c [iNullLon] [] 12 iNullLon (by decide) (Or.inr rfl)

/-- C1 counterexample: for the null-latitude report the claim predicts a
returned singleton event with an unset centroid, but `process_new_item`
returns `None` — no event at all. -/
theorem null_coord_no_event_counterexample :
    process_new_item d0 h3c [iNullLat] [] 11 = none := by decide

/-- C9 (amended): a report with valid coordinates but no disaster type is
NOT rejected — processing succeeds and, when the (attempted) match query
returns candidates, the report is added to the closest existing event. -/
theorem missing_type_not_rejected (d : DistFn) (h3 : H3Fn) (items_table : List Item)
    (events_table : List Event) (item_id : Nat) (itm : Item) (la lo : ℚ)
    (hfind : items_table.find? (fun i => i.id == item_id) = some itm)
    (_hdt : itm.disaster_type = none)
    (hlat : itm.lat = some la) (hlon : itm.lon = some lo)
    (hla : la ≠ 0) (hlo : lo ≠ 0) :
    (process_new_item d h3 items_table events_table item_id).isSome = true ∧
    (∀ best rest, find_matching_events d h3 events_table itm la lo = best :: rest →
      process_new_item d h3 items_table events_table item_id =
        some (add_item_to_event h3 itm best)) := by
  have hguard : ¬(la = 0 ∨ lo = 0) := by
    rintro (h | h)
    exacts [hla h, hlo h]
  constructor
  · unfold process_new_item
    rw [hfind]
    dsimp only
    rw [hlat, hlon]
    dsimp only
    rw [if_neg hguard]
    cases hm : find_matching_events d h3 events_table itm la lo with
    | nil =>
      simp [create_new_event]
    | cons b r =>
      rfl
  · intro best rest hm
    unfold process_new_item
    rw [hfind]
    dsimp only
    rw [hlat, hlon]
    dsimp only
    rw [if_neg hguard, hm]

/-- Witness for `missing_type_not_rejected` at `iNoType` against table
`[evC9]`. -/
theorem missing_type_not_rejected_witness :
    (process_new_item d0 h3c [iNoType] [evC9] 7).isSome = true :=
  (missing_type_not_rejected d0 h3c [iNoType] [evC9] 7 iNoType 1 1 (by decide) rfl rfl rfl
    (by decide) (by decide)).1

/-- C9 counterexample: the type-less report `iNoType` is matched against
(and merged into) the existing null-type event `evC9` — the returned event
has 2 members, so matching WAS attempted and no singleton was created. -/
theorem missing_type_matches_counterexample :
    (process_new_item d0 h3c [iNoType] [evC9] 7).map (fun e => e.items.length) = some 2 := by
  decide

/-- C10: `process_new_item` returns `None` for a non-existent report id,
and — because the guard tests Python truthiness rather than null-ness —
also for any found report whose latitude or longitude equals 0.0. -/
theorem zero_coord_or_missing_returns_none (d : DistFn) (h3 : H3Fn) (items_table : List Item)
    (events_table : List Event) (item_id : Nat) :
    (items_table.find? (fun i => i.id == item_id) = none →
      process_new_item d h3 items_table events_table item_id = none) ∧
    (∀ itm : Item, items_table.find? (fun i => i.id == item_id) = some itm →
      (itm.lat = some 0 ∨ itm.lon = some 0) →
      process_new_item d h3 items_table events_table item_id = none) := by
  constructor
  · intro h
    unfold process_new_item
    rw [h]
  · intro itm hfind hz
    unfold process_new_item
    rw [hfind]
    dsimp only
    rcases hlat : itm.lat with _ | la
    · cases itm.lon <;> rfl
    · rcases hlon : itm.lon with _ | lo
      · rfl
      · have hor : la = 0 ∨ lo = 0 := by
          rcases hz with h | h
          · rw [hlat] at h
            exact Or.inl (Option.some.inj h)
          · rw [hlon] at h
            exact Or.inr (Option.some.inj h)
        dsimp only
        rw [if_pos hor]

/-- Witness for `zero_coord_or_missing_returns_none`: an empty table and
the equator fixture `iZeroLat`. -/
theorem zero_coord_or_missing_returns_none_witness :
    process_new_item d0 h3c [] [] 1 = none ∧
    process_new_item d0 h3c [iZeroLat] [] 13 = none :=
  ⟨(zero_coord_or_missing_returns_none d0 h3c [] [] 1).1 rfl,
   (zero_coord_or_missing_returns_none d0 h3c [iZeroLat] [] 13).2 iZeroLat (by decide)
     (Or.inl rfl)⟩

/-- C8: with fewer than `min_cluster_size = 2` valid (non-null-coordinate)
reports, clustering returns the empty cluster list rather than an error,
and reclustering an empty unclustered pool returns no events. -/
theorem small_input_no_clusters (labels_of : List Item → List ℤ) (h3 : H3Fn)
    (items : List Item)
    (h : (items.filter valid_coords).length < 2) :
    cluster_items labels_of items = [] ∧
    recluster_events labels_of h3 [] = [] := by
  constructor
  · unfold cluster_items
    by_cases hi : items = []
    · rw [if_pos hi]
    · rw [if_neg hi]
      dsimp only
      rw [if_pos h]
  · rfl

/-- Witness for `small_input_no_clusters` on a one-report batch whose only
report has a null coordinate. -/
theorem small_input_no_clusters_witness :
    cluster_items lbl0 [iNullLat] = [] ∧ recluster_events lbl0 h3c [] = [] :=
  small_input_no_clusters lbl0 h3c [iNullLat] (by decide)
